import Mathlib

/-!
# Book-Alchemy catalog: shallow embedding and verification

This file embeds the data model (`data_models.py`) and the four request
handlers (`app.py`: `home`, `add_author`, `add_book`, `delete_book`) of the
Book-Alchemy Flask application as pure Lean functions over an explicit
catalog state, and proves the specification claims about them.

Modelling conventions:
* The SQLite tables are lists of records; `Book.query.all()` is the list in
  insertion order.
* Form data (`request.form.get(k)`) is an `Option String` per field: `none`
  models an absent field. Calling `.strip()` on an absent field raises
  `AttributeError` in Python; we model any uncaught Python exception as the
  `Outcome.crash` constructor carrying the exception name.
* `db.session.commit()` may fail with a `SQLAlchemyError`; handlers receive
  the commit result as an explicit `commitErr : Option String` parameter
  (`none` = commit succeeds, `some msg` = commit raises with message `msg`).
* SQLite `ORDER BY` on text uses BINARY collation (memcmp of UTF-8 bytes);
  since UTF-8 byte order agrees with code-point order, we compare titles
  code-point-wise. `ORDER BY` is modelled by a stable insertion sort.
* SQLite `LIKE` is modelled with its `%`/`_` wildcards and its default
  ASCII case-insensitivity.
-/

namespace BookAlchemy

/-! ## Generic ordering and stable sorting (models SQL ORDER BY) -/

/-- Code-point-wise comparison of character lists; models SQLite BINARY
collation on text (UTF-8 byte order coincides with code-point order). -/
def charListLe : List Char → List Char → Bool
  | [], _ => true
  | _ :: _, [] => false
  | a :: as, b :: bs =>
    if a.toNat = b.toNat then charListLe as bs else decide (a.toNat < b.toNat)

/-- BINARY-collation comparison of strings. -/
def strLe (s t : String) : Bool := charListLe s.data t.data

/-- Insert `x` into `l` before the first element not `le`-below it. -/
def insertSorted (le : α → α → Bool) (x : α) : List α → List α
  | [] => [x]
  | y :: ys => if le x y then x :: y :: ys else y :: insertSorted le x ys

/-- Stable insertion sort; models SQL ORDER BY with comparison `le`. -/
def sortList (le : α → α → Bool) : List α → List α
  | [] => []
  | x :: xs => insertSorted le x (sortList le xs)

/-! ## String utilities (structural versions of split / strip) -/

/-- Split a character list at each dash; models Python
`s.split("-")` (and `String.splitOn` with a dash separator). -/
def splitOnDash : List Char → List (List Char)
  | [] => [[]]
  | '-' :: rest => [] :: splitOnDash rest
  | c :: rest =>
    match splitOnDash rest with
    | [] => [[c]]
    | g :: gs => (c :: g) :: gs

/-- Remove leading and trailing whitespace; models Python `str.strip()`. -/
def trimChars (l : List Char) : List Char :=
  ((l.dropWhile Char.isWhitespace).reverse.dropWhile Char.isWhitespace).reverse

/-- Python `s.strip()` on a string. -/
def pyStrip (s : String) : String := ⟨trimChars s.data⟩

/-! ## Calendar dates (models Python datetime.strptime with format Y-m-d) -/

/-- A calendar date as produced by Python `datetime.date`. -/
structure Date where
  year : Nat
  month : Nat
  day : Nat
deriving DecidableEq, Repr

/-- Gregorian leap-year rule, as in Python `calendar`/`datetime`. -/
def isLeapYear (y : Nat) : Bool :=
  (y % 4 == 0 && y % 100 != 0) || (y % 400 == 0)

/-- Number of days of month `m` in year `y` (Python `datetime` validation). -/
def daysInMonth (y m : Nat) : Nat :=
  if m = 2 then (if isLeapYear y then 29 else 28)
  else if m = 4 ∨ m = 6 ∨ m = 9 ∨ m = 11 then 30
  else 31

/-- Numeric value of a list of decimal digit characters. -/
def digitsToNat (l : List Char) : Nat :=
  l.foldl (fun n c => n * 10 + (c.toNat - 48)) 0

/-- Models Python `datetime.strptime(s, "%Y-%m-%d").date()`:
`%Y` matches exactly four digits, `%m` one or two digits in 1..12,
`%d` one or two digits in 1..31; the resulting `datetime` constructor
additionally requires `year ≥ 1` and the day to exist in the month.
Returns `none` exactly when Python raises `ValueError`. -/
def parseDate (s : String) : Option Date :=
  match splitOnDash s.data with
  | [ys, ms, ds] =>
    if ys.length = 4 && ys.all Char.isDigit
        && (ms.length = 1 || ms.length = 2) && ms.all Char.isDigit
        && (ds.length = 1 || ds.length = 2) && ds.all Char.isDigit then
      let y := digitsToNat ys
      let m := digitsToNat ms
      let d := digitsToNat ds
      if 1 ≤ y && 1 ≤ m && m ≤ 12 && 1 ≤ d && d ≤ daysInMonth y m then
        some ⟨y, m, d⟩
      else none
    else none
  | _ => none

/-- Strict chronological order on dates (lexicographic year, month, day). -/
def dateLt (a b : Date) : Bool :=
  a.year < b.year
    || (a.year = b.year && a.month < b.month)
    || (a.year = b.year && a.month = b.month && a.day < b.day)

/-! ## Python int() parsing (on an already-stripped string) -/

/-- Python integer-literal digit run after the first digit: decimal digits
with single underscores allowed only between digits. -/
def pyDigitsRest : List Char → Bool
  | [] => true
  | '_' :: [] => false
  | '_' :: c :: cs => c.isDigit && pyDigitsRest cs
  | c :: cs => c.isDigit && pyDigitsRest cs

/-- Python integer-literal digit run: non-empty, starts with a digit,
single underscores only between digits. -/
def pyDigitsOk : List Char → Bool
  | [] => false
  | c :: cs => c.isDigit && pyDigitsRest cs

/-- The whitespace-free core of Python `int(s)`: optional sign, then a digit
run with optional underscore grouping. -/
def pyIntNoWs : List Char → Option Int
  | '+' :: rest =>
    if pyDigitsOk rest then some (digitsToNat (rest.filter (· ≠ '_'))) else none
  | '-' :: rest =>
    if pyDigitsOk rest then some (-(digitsToNat (rest.filter (· ≠ '_')) : Int)) else none
  | l =>
    if pyDigitsOk l then some (digitsToNat (l.filter (· ≠ '_'))) else none

/-- Models Python `int(s)` on the characters of a string: `int()` itself
tolerates surrounding whitespace (so int of the text 1999-space parses to
1999), then an optional sign and a digit run with optional underscore
grouping. Returns `none` exactly when Python raises `ValueError`. -/
def pyIntChars (l : List Char) : Option Int := pyIntNoWs (trimChars l)

/-- Models Python `int(s)` on a string. -/
def pyInt (s : String) : Option Int := pyIntChars s.data

/-! ## SQLite LIKE (with default ASCII case-insensitivity) -/

/-- Lower-case an ASCII letter; other characters unchanged (SQLite LIKE
folds case only for ASCII). -/
def asciiLower (c : Char) : Char :=
  if 'A' ≤ c && c ≤ 'Z' then Char.ofNat (c.toNat + 32) else c

/-- SQLite LIKE pattern matching: in the pattern, the percent character
matches any sequence of characters, the underscore matches any single
character, and any other character matches itself ASCII-case-insensitively. -/
def likeMatch : List Char → List Char → Bool
  | [], cs => cs.isEmpty
  | '%' :: ps, cs => (List.range (cs.length + 1)).any fun i => likeMatch ps (cs.drop i)
  | '_' :: ps, cs =>
    match cs with
    | [] => false
    | _ :: cs => likeMatch ps cs
  | p :: ps, cs =>
    match cs with
    | [] => false
    | c :: cs => asciiLower p == asciiLower c && likeMatch ps cs

/-! ## Data model (data_models.py)

The schema in `data_models.py` declares `Author.birth_date`/`death_date` and
`Book.publication_year` as String columns and `Book.isbn` as a non-unique
Integer column, but the handlers in `app.py` assign Python `date` objects,
`int` year values and the submitted ISBN string; SQLite applies column
affinity to whatever the handler wrote. We record in each row the Python
value the handler assigns (parsed dates, an optional integer year, the
submitted ISBN string) and model the affinity effects where they are
observable: ORDER BY on publication_year compares the TEXT-affinity column,
i.e. the decimal text of the year (`pubYearLe`), and the duplicate-ISBN
lookup compares values after Integer-affinity coercion
(`applyIntAffinity`). -/

/-- A row of the `author` table. -/
structure Author where
  id : Nat
  name : String
  birth_date : Date
  death_date : Option Date
deriving DecidableEq, Repr

/-- A row of the `book` table. -/
structure Book where
  id : Nat
  author_id : Int
  title : String
  publication_year : Option Int
  isbn : String
deriving DecidableEq, Repr

/-- The whole persistent store: the two tables, each in insertion order. -/
structure CatalogState where
  authors : List Author
  books : List Book
deriving DecidableEq, Repr

/-- The store right after idempotent schema creation. -/
def emptyCatalog : CatalogState := ⟨[], []⟩

/-- SQLite `autoincrement` primary key allocation: one more than the largest
id in the table (max of the empty table being 0). -/
def nextId (ids : List Nat) : Nat := ids.foldr max 0 + 1

/-- The id allocated to the next inserted Author row. -/
def nextAuthorId (st : CatalogState) : Nat := nextId (st.authors.map (·.id))

/-- The id allocated to the next inserted Book row. -/
def nextBookId (st : CatalogState) : Nat := nextId (st.books.map (·.id))

/-! ## Handler outcomes

Each POST handler either redirects, re-renders its template with an error
message, or lets a Python exception escape unhandled (`crash`). The
`authorList` field is the author list passed to the re-rendered template
(`add_book.html` is re-rendered with `Author.query.all()`;
`add_author.html` is re-rendered without an author list, modelled as `[]`). -/

/-- Result of a POST handler, as observed by the caller. -/
inductive Outcome where
  | redirect (endpoint flag : String)
  | render (template : String) (errorMsg : Option String) (authorList : List Author)
  | crash (exn : String)
deriving DecidableEq, Repr

/-- True when the handler let an exception escape unhandled. -/
def Outcome.isCrash : Outcome → Bool
  | .crash _ => true
  | _ => false

/-- True when the handler re-rendered a template. -/
def Outcome.isRender : Outcome → Bool
  | .render _ _ _ => true
  | _ => false

/-- True when the handler redirected. -/
def Outcome.isRedirect : Outcome → Bool
  | .redirect _ _ => true
  | _ => false

/-! ## GET / — home (app.py lines 30-56) -/

/-- ORDER BY Book.title (BINARY collation). -/
def titleLe (a b : Book) : Bool := strLe a.title b.title

/-- ORDER BY Book.publication_year: the schema declares the column as
String (TEXT affinity), so SQLite stores the handler's integer year as its
decimal text and ascending ORDER BY sorts NULLs first, then the decimal
strings under BINARY collation (so the text 1999 sorts before the text
999). -/
def pubYearLe (a b : Book) : Bool :=
  match a.publication_year, b.publication_year with
  | none, _ => true
  | some _, none => false
  | some x, some y => strLe (toString x) (toString y)

/-- The Author row matched by the join condition
`book.author_id = author.id` (primary keys are unique, so at most one). -/
def authorOf (st : CatalogState) (b : Book) : Option Author :=
  st.authors.find? fun a => (a.id : Int) == b.author_id

/-- `Book.query.join(Author)`: the inner join of the two tables on
`book.author_id = author.id`; books with no matching author are dropped. -/
def booksJoinAuthor (st : CatalogState) : List (Book × Author) :=
  st.books.filterMap fun b => (authorOf st b).map fun a => (b, a)

/-- ORDER BY Author.name on joined rows (BINARY collation). -/
def joinNameLe (p q : Book × Author) : Bool := strLe p.2.name q.2.name

/-- The LIKE filter `Book.title LIKE '%' + search + '%'` applied to a row. -/
def bookTitleLike (search : String) (b : Book) : Bool :=
  likeMatch (('%' :: search.data) ++ ['%']) b.title.data

/-- The sorting dispatch of `home` when no search is active
(app.py lines 44-54), mirroring the if/elif chain on `sort_by`. -/
def homeNoSearch (st : CatalogState) (sort_by : String) : List Book :=
  if sort_by = "title" then sortList titleLe st.books
  else if sort_by = "author" then
    (sortList joinNameLe (booksJoinAuthor st)).map Prod.fst
  else if sort_by = "publication_year" then sortList pubYearLe st.books
  else if sort_by = "no_sort" then st.books
  else st.books

/-- The `home` handler: the list of books rendered for the given query
parameters. `request.args.get` yields `none` for an absent parameter and
`sort_by` defaults to the string no_sort; a search parameter is active
only when present and non-empty (Python truthiness). Read-only: the
handler never touches the state. -/
def home (st : CatalogState) (search : Option String) (sort_by : Option String) :
    List Book :=
  let sb := sort_by.getD "no_sort"
  match search with
  | some s =>
    if s = "" then homeNoSearch st sb
    else sortList titleLe (st.books.filter (bookTitleLike s))
  | none => homeNoSearch st sb

/-! ## POST /add_author (app.py lines 59-92) -/

/-- The submitted add-author form; `none` models a field absent from
`request.form`. -/
structure AuthorForm where
  name : Option String
  birth_date : Option String
  death_date : Option String
deriving DecidableEq, Repr

/-- The `add_author` POST handler. Field access mirrors
`request.form.get(k).strip()`: an absent field raises `AttributeError`
(strip of None). `birth_date` is parsed unconditionally and `death_date`
only when non-empty, each raising an uncaught `ValueError` when
unparseable. Only `db.session.add`/`commit` sit in a try/except
SQLAlchemyError block, which rolls back and re-renders with the message. -/
def add_author (st : CatalogState) (form : AuthorForm) (commitErr : Option String) :
    Outcome × CatalogState :=
  match form.name, form.birth_date, form.death_date with
  | some nameRaw, some birthRaw, some deathRaw =>
    let author_name := pyStrip nameRaw
    let birth_date_str := pyStrip birthRaw
    let death_date_str := pyStrip deathRaw
    match parseDate birth_date_str with
    | none => (.crash "ValueError", st)
    | some birth_date =>
      match (if death_date_str ≠ "" then (parseDate death_date_str).map some
             else some none) with
      | none => (.crash "ValueError", st)
      | some death_date =>
        match commitErr with
        | some msg =>
          (.render "add_author.html" (some ("Database error: " ++ msg)) [], st)
        | none =>
          (.redirect "add_author" "success=True",
           { st with authors := st.authors ++
               [⟨nextAuthorId st, author_name, birth_date, death_date⟩] })
  | _, _, _ => (.crash "AttributeError", st)

/-! ## POST /add_book (app.py lines 95-146) -/

/-- An SQLite storage-class value of the Integer-affinity isbn column:
either an integer or text that did not look like an integer. -/
inductive IsbnValue where
  | intVal (n : Int)
  | textVal (s : String)
deriving DecidableEq, Repr

/-- A well-formed SQLite integer literal: optional sign, then one or more
decimal digits. -/
def sqliteIntLit : List Char → Bool
  | '+' :: rest => !rest.isEmpty && rest.all Char.isDigit
  | '-' :: rest => !rest.isEmpty && rest.all Char.isDigit
  | l => !l.isEmpty && l.all Char.isDigit

/-- The integer denoted by a well-formed SQLite integer literal. -/
def sqliteIntValue : List Char → Int
  | '+' :: rest => digitsToNat rest
  | '-' :: rest => -(digitsToNat rest : Int)
  | l => digitsToNat l

/-- SQLite numeric affinity applied to a text value stored in or compared
against the Integer-affinity isbn column: well-formed integer text becomes
the integer (losing e.g. leading zeros, so the texts 0123 and 123 collide),
any other text stays text. Both the stored value and the comparand of
`filter_by(isbn=...)` undergo this conversion. -/
def applyIntAffinity (s : String) : IsbnValue :=
  if sqliteIntLit s.data then .intVal (sqliteIntValue s.data) else .textVal s

/-- The submitted add-book form; `none` models a field absent from
`request.form`. -/
structure BookForm where
  title : Option String
  author_id : Option String
  publication_year : Option String
  isbn : Option String
deriving DecidableEq, Repr

/-- The year-extraction policy of `add_book` (app.py lines 113-118) on a
non-empty stripped string: if it contains a dash, parse the part before the
first dash as an integer, else parse the whole string. -/
def parsePubYear (ys : String) : Option Int :=
  if ys.data.contains '-' then pyIntChars ((splitOnDash ys.data).headD [])
  else pyInt ys

/-- The duplicate-ISBN error message rendered by `add_book`. -/
def dupBookMsg (isbn : String) : String :=
  "A book with ISBN " ++ isbn ++ " already exists."

/-- The `add_book` POST handler. Field access mirrors
`request.form.get(k).strip()` (absent field: `AttributeError`);
`int(author_id)` raises an uncaught `ValueError` when malformed. A
non-empty `publication_year` that fails to parse re-renders the form with
the year error and the reloaded author list; a duplicate ISBN (same stored
value after Integer-affinity coercion, so the texts 123 and 0123 collide)
re-renders with the duplicate error; otherwise the row is inserted and
committed —
the commit is *not* wrapped in try/except, so a storage failure escapes
as an unhandled `SQLAlchemyError`. -/
def add_book (st : CatalogState) (form : BookForm) (commitErr : Option String) :
    Outcome × CatalogState :=
  match form.title, form.author_id, form.publication_year, form.isbn with
  | some titleRaw, some aidRaw, some yearRaw, some isbnRaw =>
    let title := pyStrip titleRaw
    match pyInt (pyStrip aidRaw) with
    | none => (.crash "ValueError", st)
    | some author_id =>
      let publication_year_str := pyStrip yearRaw
      let isbn := pyStrip isbnRaw
      match (if publication_year_str ≠ "" then (parsePubYear publication_year_str).map some
             else some none) with
      | none =>
        (.render "add_book.html"
          (some ("Invalid year format: " ++ publication_year_str)) st.authors, st)
      | some publication_year =>
        if st.books.any (fun b => applyIntAffinity b.isbn == applyIntAffinity isbn) then
          (.render "add_book.html" (some (dupBookMsg isbn)) st.authors, st)
        else
          match commitErr with
          | some _ => (.crash "SQLAlchemyError", st)
          | none =>
            (.redirect "add_book" "success=True",
             { st with books := st.books ++
                 [⟨nextBookId st, author_id, title, publication_year, isbn⟩] })
  | _, _, _, _ => (.crash "AttributeError", st)

/-! ## POST /book/(id)/delete (app.py lines 149-166) -/

/-- The `delete_book` POST handler: look up the row by primary key; report
not-found as a redirect with an error flag; otherwise delete and commit,
rolling back and redirecting with the error message on storage failure. -/
def delete_book (st : CatalogState) (book_id : Nat) (commitErr : Option String) :
    Outcome × CatalogState :=
  match st.books.find? (fun b => b.id == book_id) with
  | none => (.redirect "home" "error=Book not found", st)
  | some _ =>
    match commitErr with
    | some msg => (.redirect "home" ("error=Error deleting book: " ++ msg), st)
    | none =>
      (.redirect "home" "success_delete=True",
       { st with books := st.books.filter fun b => b.id ≠ book_id })

/-! ## Derived notions used by the claims -/

/-- No two rows of the book table share the same stored ISBN value (the
value after Integer-affinity coercion, which is what the column holds and
what the duplicate check compares). -/
def distinctIsbns (books : List Book) : Prop :=
  books.Pairwise fun a b => applyIntAffinity a.isbn ≠ applyIntAffinity b.isbn

instance (books : List Book) : Decidable (distinctIsbns books) := by
  unfold distinctIsbns; infer_instance

/-- Follows the spec's words for the search claim (not the source): the book
title contains the search string as a substring. Declared only to compare
the claimed behaviour with the embedded code's LIKE filter. -/
def titleContainsSubstr (needle hay : String) : Bool :=
  (List.range (hay.data.length + 1)).any fun i => needle.data.isPrefixOf (hay.data.drop i)

/-! ## General lemmas: sorting, ordering, id freshness -/

theorem insertSorted_perm (le : α → α → Bool) (x : α) (l : List α) :
    (insertSorted le x l).Perm (x :: l) := by
  induction l with
  | nil => exact List.Perm.refl _
  | cons y ys ih =>
    simp only [insertSorted]
    split
    · exact List.Perm.refl _
    · exact (ih.cons y).trans (List.Perm.swap x y ys)

theorem sortList_perm (le : α → α → Bool) (l : List α) :
    (sortList le l).Perm l := by
  induction l with
  | nil => exact List.Perm.refl _
  | cons x xs ih => exact (insertSorted_perm le x _).trans (ih.cons x)

theorem mem_sortList (le : α → α → Bool) (l : List α) (a : α) :
    a ∈ sortList le l ↔ a ∈ l :=
  (sortList_perm le l).mem_iff

theorem count_sortList [DecidableEq α] (le : α → α → Bool) (l : List α) (a : α) :
    (sortList le l).count a = l.count a :=
  (sortList_perm le l).count_eq a

theorem insertSorted_pairwise (le : α → α → Bool)
    (htot : ∀ a b, le a b = true ∨ le b a = true)
    (htrans : ∀ a b c, le a b = true → le b c = true → le a c = true)
    (x : α) (l : List α) (hl : l.Pairwise fun a b => le a b = true) :
    (insertSorted le x l).Pairwise fun a b => le a b = true := by
  induction l with
  | nil => simp [insertSorted]
  | cons y ys ih =>
    rcases List.pairwise_cons.mp hl with ⟨hy, hys⟩
    simp only [insertSorted]
    split
    case isTrue h =>
      refine List.pairwise_cons.mpr ⟨?_, hl⟩
      intro b hb
      rcases List.mem_cons.mp hb with rfl | hb
      · exact h
      · exact htrans x y b h (hy b hb)
    case isFalse h =>
      refine List.pairwise_cons.mpr ⟨?_, ih hys⟩
      intro b hb
      have hmem : b = x ∨ b ∈ ys := by
        simpa using (insertSorted_perm le x ys).mem_iff.mp hb
      rcases hmem with rfl | hb
      · rcases htot b y with h1 | h2
        · exact absurd h1 h
        · exact h2
      · exact hy b hb

theorem sortList_pairwise (le : α → α → Bool)
    (htot : ∀ a b, le a b = true ∨ le b a = true)
    (htrans : ∀ a b c, le a b = true → le b c = true → le a c = true)
    (l : List α) :
    (sortList le l).Pairwise fun a b => le a b = true := by
  induction l with
  | nil => simp [sortList]
  | cons x xs ih => exact insertSorted_pairwise le htot htrans x _ ih

theorem charListLe_total : ∀ x y, charListLe x y = true ∨ charListLe y x = true
  | [], _ => Or.inl rfl
  | _ :: _, [] => Or.inr rfl
  | a :: as, b :: bs => by
    rcases Nat.lt_trichotomy a.toNat b.toNat with h | h | h
    · left
      simp [charListLe, Nat.ne_of_lt h, h]
    · simp only [charListLe, if_pos h, if_pos h.symm]
      exact charListLe_total as bs
    · right
      simp [charListLe, Nat.ne_of_lt h, h]

theorem charListLe_trans :
    ∀ x y z, charListLe x y = true → charListLe y z = true → charListLe x z = true
  | [], _, _, _, _ => rfl
  | _ :: _, [], _, h, _ => by simp [charListLe] at h
  | _ :: _, _ :: _, [], _, h => by simp [charListLe] at h
  | a :: as, b :: bs, c :: cs, h1, h2 => by
    simp only [charListLe] at h1 h2 ⊢
    by_cases hab : a.toNat = b.toNat
    · rw [if_pos hab] at h1
      by_cases hbc : b.toNat = c.toNat
      · rw [if_pos hbc] at h2
        rw [if_pos (hab.trans hbc)]
        exact charListLe_trans as bs cs h1 h2
      · rw [if_neg hbc] at h2
        have hlt : a.toNat < c.toNat := hab ▸ of_decide_eq_true h2
        rw [if_neg (Nat.ne_of_lt hlt)]
        exact decide_eq_true hlt
    · rw [if_neg hab] at h1
      have hab' : a.toNat < b.toNat := of_decide_eq_true h1
      by_cases hbc : b.toNat = c.toNat
      · have hlt : a.toNat < c.toNat := hbc ▸ hab'
        rw [if_neg (Nat.ne_of_lt hlt)]
        exact decide_eq_true hlt
      · rw [if_neg hbc] at h2
        have hlt : a.toNat < c.toNat := hab'.trans (of_decide_eq_true h2)
        rw [if_neg (Nat.ne_of_lt hlt)]
        exact decide_eq_true hlt

theorem strLe_total (s t : String) : strLe s t = true ∨ strLe t s = true :=
  charListLe_total s.data t.data

theorem strLe_trans (s t u : String) :
    strLe s t = true → strLe t u = true → strLe s u = true :=
  charListLe_trans s.data t.data u.data

theorem titleLe_total (a b : Book) : titleLe a b = true ∨ titleLe b a = true :=
  strLe_total a.title b.title

theorem titleLe_trans (a b c : Book) :
    titleLe a b = true → titleLe b c = true → titleLe a c = true :=
  strLe_trans a.title b.title c.title

theorem pubYearLe_total (a b : Book) : pubYearLe a b = true ∨ pubYearLe b a = true := by
  unfold pubYearLe
  cases a.publication_year with
  | none => exact Or.inl rfl
  | some x =>
    cases b.publication_year with
    | none => exact Or.inr rfl
    | some y => exact strLe_total (toString x) (toString y)

theorem pubYearLe_trans (a b c : Book) :
    pubYearLe a b = true → pubYearLe b c = true → pubYearLe a c = true := by
  unfold pubYearLe
  cases a.publication_year with
  | none => intro _ _; rfl
  | some x =>
    cases b.publication_year with
    | none => intro h; exact absurd h (by simp)
    | some y =>
      cases c.publication_year with
      | none => intro _ h; exact absurd h (by simp)
      | some z => exact strLe_trans (toString x) (toString y) (toString z)

theorem joinNameLe_total (p q : Book × Author) :
    joinNameLe p q = true ∨ joinNameLe q p = true :=
  strLe_total p.2.name q.2.name

theorem joinNameLe_trans (p q r : Book × Author) :
    joinNameLe p q = true → joinNameLe q r = true → joinNameLe p r = true :=
  strLe_trans p.2.name q.2.name r.2.name

theorem le_foldr_max (i : Nat) (l : List Nat) (h : i ∈ l) : i ≤ l.foldr max 0 := by
  induction l with
  | nil => cases h
  | cons x xs ih =>
    rcases List.mem_cons.mp h with rfl | h
    · exact Nat.le_max_left i (xs.foldr max 0)
    · exact (ih h).trans (Nat.le_max_right x (xs.foldr max 0))

theorem lt_nextId (i : Nat) (l : List Nat) (h : i ∈ l) : i < nextId l :=
  Nat.lt_succ_of_le (le_foldr_max i l h)

/-- The freshly allocated book id differs from every existing book's id. -/
theorem nextBookId_fresh (st : CatalogState) (b : Book) (hb : b ∈ st.books) :
    b.id ≠ nextBookId st :=
  Nat.ne_of_lt (lt_nextId b.id _ (List.mem_map_of_mem (·.id) hb))

/-- The freshly allocated author id differs from every existing author's id. -/
theorem nextAuthorId_fresh (st : CatalogState) (a : Author) (ha : a ∈ st.authors) :
    a.id ≠ nextAuthorId st :=
  Nat.ne_of_lt (lt_nextId a.id _ (List.mem_map_of_mem (·.id) ha))

/-! ## Claim C3: sorting dispatch of the listing -/

/-- Counterexample to C3 as stated: publication_year is a String (TEXT
affinity) column, so the stored years are compared as decimal text under
BINARY collation and ORDER BY lists the year 1999 before the numerically
smaller year 999 — the listing is not ordered by year ascending. -/
theorem home_pubyear_order_cex :
    home ⟨[], [⟨1, 1, "A", some 999, "i1"⟩, ⟨2, 1, "B", some 1999, "i2"⟩]⟩ none
        (some "publication_year")
      = [⟨2, 1, "B", some 1999, "i2"⟩, ⟨1, 1, "A", some 999, "i1"⟩]
    ∧ (999 : Int) < 1999 :=
  ⟨by decide, by decide⟩

/-- C3 (amended): when no search is active the listing dispatches on
sort_by: the string title sorts the books by title ascending; the string
author joins the books with the Author table and sorts by author name
ascending (in the concrete two-author instance the Alpha-owned book
precedes the Zeta-owned one); the string publication_year sorts by the
stored year value of the TEXT-affinity column — NULLs first, then the
decimal text of the year under BINARY collation, which agrees with numeric
ascending order only among years with equally many digits; any other or
absent value yields the full listing in insertion order; the handler is a
pure (read-only) function of the state and an empty catalog yields the
valid empty list, not an error. -/
theorem home_sort_dispatch (st : CatalogState) :
    (home st none (some "title") = sortList titleLe st.books
      ∧ (sortList titleLe st.books).Pairwise (fun a b => titleLe a b = true)
      ∧ (∀ b, b ∈ home st none (some "title") ↔ b ∈ st.books))
    ∧ (home st none (some "author")
        = (sortList joinNameLe (booksJoinAuthor st)).map Prod.fst
      ∧ (sortList joinNameLe (booksJoinAuthor st)).Pairwise
          (fun p q => joinNameLe p q = true)
      ∧ (∀ b, b ∈ home st none (some "author") ↔ ∃ a, (b, a) ∈ booksJoinAuthor st))
    ∧ (home st none (some "publication_year") = sortList pubYearLe st.books
      ∧ (sortList pubYearLe st.books).Pairwise (fun a b => pubYearLe a b = true)
      ∧ (∀ b, b ∈ home st none (some "publication_year") ↔ b ∈ st.books))
    ∧ (∀ sb, sb ≠ "title" → sb ≠ "author" → sb ≠ "publication_year" →
        home st none (some sb) = st.books)
    ∧ home st none none = st.books
    ∧ (∀ search sort_by, home emptyCatalog search sort_by = [])
    ∧ home ⟨[⟨1, "Zeta", ⟨1950, 1, 1⟩, none⟩, ⟨2, "Alpha", ⟨1960, 1, 1⟩, none⟩],
            [⟨1, 1, "ZBook", none, "z"⟩, ⟨2, 2, "ABook", none, "a"⟩]⟩ none (some "author")
        = [⟨2, 2, "ABook", none, "a"⟩, ⟨1, 1, "ZBook", none, "z"⟩] := by
  refine ⟨⟨rfl, ?_, ?_⟩, ⟨rfl, ?_, ?_⟩, ⟨rfl, ?_, ?_⟩, ?_, rfl, ?_, by decide⟩
  · exact sortList_pairwise titleLe titleLe_total titleLe_trans st.books
  · intro b
    rw [show home st none (some "title") = sortList titleLe st.books from rfl]
    exact mem_sortList titleLe st.books b
  · exact sortList_pairwise joinNameLe joinNameLe_total joinNameLe_trans _
  · intro b
    rw [show home st none (some "author")
          = (sortList joinNameLe (booksJoinAuthor st)).map Prod.fst from rfl]
    simp only [List.mem_map, mem_sortList]
    constructor
    · rintro ⟨⟨b1, a⟩, hmem, rfl⟩
      exact ⟨a, hmem⟩
    · rintro ⟨a, hmem⟩
      exact ⟨(b, a), hmem, rfl⟩
  · exact sortList_pairwise pubYearLe pubYearLe_total pubYearLe_trans st.books
  · intro b
    rw [show home st none (some "publication_year") = sortList pubYearLe st.books from rfl]
    exact mem_sortList pubYearLe st.books b
  · intro sb h1 h2 h3
    simp [home, homeNoSearch, h1, h2, h3]
  · intro search sort_by
    cases search with
    | none => simp [home, homeNoSearch, emptyCatalog, sortList, booksJoinAuthor]
    | some s =>
      by_cases h : s = ""
      · subst h
        simp [home, homeNoSearch, emptyCatalog, sortList, booksJoinAuthor]
      · simp [home, homeNoSearch, emptyCatalog, sortList, booksJoinAuthor, h]

/-- Witness for C3: a concrete unrecognized sort key returns the unordered
full listing. -/
theorem home_sort_dispatch_witness :
    home ⟨[], [⟨1, 1, "B", none, "i"⟩]⟩ none (some "xyz") = [⟨1, 1, "B", none, "i"⟩] :=
  (home_sort_dispatch ⟨[], [⟨1, 1, "B", none, "i"⟩]⟩).2.2.2.1 "xyz"
    (by decide) (by decide) (by decide)

/-! ## Claim C2: search listing -/

/-- Counterexample to C2 as stated: with one book titled A, searching for
the underscore character returns that book (the SQL LIKE wildcard matches
any single character), although the title does not contain the underscore
as a substring, so the listing is not exactly the books whose title
contains the search string. -/
theorem home_search_substring_cex :
    home ⟨[], [⟨1, 1, "A", none, "i"⟩]⟩ (some "_") none = [⟨1, 1, "A", none, "i"⟩]
      ∧ titleContainsSubstr "_" "A" = false :=
  ⟨by decide, by decide⟩

/-- C2 (amended): for every catalog state and non-empty search string, the
listing returns exactly the books whose title matches the SQL LIKE pattern
percent-search-percent (with percent and underscore wildcards active and
ASCII case folding), ordered by title, and any supplied sort_by parameter
is ignored while search is active. -/
theorem home_search_like_spec (st : CatalogState) (s : String) (hs : s ≠ "")
    (sort_by : Option String) :
    home st (some s) sort_by = sortList titleLe (st.books.filter (bookTitleLike s))
    ∧ (∀ b, b ∈ home st (some s) sort_by ↔ b ∈ st.books ∧ bookTitleLike s b = true)
    ∧ (home st (some s) sort_by).Pairwise (fun a b => titleLe a b = true)
    ∧ (∀ sb : Option String, home st (some s) sort_by = home st (some s) sb) := by
  have heq : ∀ sb : Option String,
      home st (some s) sb = sortList titleLe (st.books.filter (bookTitleLike s)) := by
    intro sb
    simp [home, hs]
  refine ⟨heq sort_by, ?_, ?_, ?_⟩
  · intro b
    rw [heq sort_by, mem_sortList, List.mem_filter]
  · rw [heq sort_by]
    exact sortList_pairwise titleLe titleLe_total titleLe_trans _
  · intro sb
    rw [heq sort_by, heq sb]

/-- Witness for C2 (amended) at a concrete catalog and search string. -/
theorem home_search_like_spec_witness :
    home ⟨[], [⟨1, 1, "A", none, "i"⟩]⟩ (some "a") none
      = sortList titleLe (List.filter (bookTitleLike "a") [⟨1, 1, "A", none, "i"⟩]) :=
  (home_search_like_spec ⟨[], [⟨1, 1, "A", none, "i"⟩]⟩ "a" (by decide) none).1

/-! ## Claim C1: duplicate-ISBN rejection and ISBN uniqueness -/

/-- Book insertion through add_book preserves pairwise-distinct ISBNs: every
path either leaves the table unchanged or appends a row whose ISBN passed
the duplicate check. -/
theorem add_book_preserves_distinctIsbns (st : CatalogState) (form : BookForm)
    (c : Option String) (h : distinctIsbns st.books) :
    distinctIsbns ((add_book st form c).2).books := by
  rcases form with ⟨t, a, y, i⟩
  cases t <;> cases a <;> cases y <;> cases i <;> try exact h
  simp only [add_book]
  split
  · exact h
  · split
    · exact h
    · split
      · exact h
      · rename_i hdup
        split
        · exact h
        · unfold distinctIsbns at h ⊢
          rw [List.pairwise_append]
          refine ⟨h, by simp, ?_⟩
          intro b hb b2 hb2
          simp only [List.mem_singleton] at hb2
          subst hb2
          intro heq
          apply hdup
          rw [List.any_eq_true]
          exact ⟨b, hb, by simp [heq]⟩

/-- Deleting a book preserves pairwise-distinct ISBNs. -/
theorem delete_book_preserves_distinctIsbns (st : CatalogState) (id2 : Nat)
    (c : Option String) (h : distinctIsbns st.books) :
    distinctIsbns ((delete_book st id2 c).2).books := by
  unfold delete_book
  split
  · exact h
  · split
    · exact h
    · exact List.Pairwise.filter _ h

/-- The add_author handler never touches the book table. -/
theorem add_author_books_unchanged (st : CatalogState) (form : AuthorForm)
    (c : Option String) : ((add_author st form c).2).books = st.books := by
  rcases form with ⟨a, b, d⟩
  cases a <;> cases b <;> cases d <;> try rfl
  simp only [add_author]
  split
  · rfl
  · split
    · rfl
    · split
      · rfl
      · rfl

/-- Counterexample to C5 as stated: with an unparseable birth_date the
add_author handler does not recover at the handler boundary — the strptime
ValueError escapes unhandled (no re-rendered form); the table is unchanged. -/
theorem add_author_validation_cex :
    (add_author emptyCatalog ⟨some "X", some "abc", some ""⟩ none).1
        = Outcome.crash "ValueError"
    ∧ (add_author emptyCatalog ⟨some "X", some "abc", some ""⟩ none).2 = emptyCatalog
    ∧ (add_author emptyCatalog ⟨some "X", some "abc", some ""⟩ none).1.isRender = false :=
  ⟨by decide, by decide, by decide⟩

/-- C5 (amended): an author-creation request whose birth_date is present but
unparseable, or whose supplied non-empty death_date is unparseable, fails
with an unhandled ValueError escaping the handler (not a re-rendered form),
and no Author row is persisted; date parse errors are not recovered at the
handler boundary (only storage errors are). -/
theorem add_author_invalid_date_spec (st : CatalogState) (nm b d : String)
    (c : Option String) :
    (parseDate (pyStrip b) = none →
      add_author st ⟨some nm, some b, some d⟩ c = (.crash "ValueError", st))
    ∧ (∀ bd, parseDate (pyStrip b) = some bd → pyStrip d ≠ "" →
        parseDate (pyStrip d) = none →
        add_author st ⟨some nm, some b, some d⟩ c = (.crash "ValueError", st)) := by
  constructor
  · intro hb
    simp [add_author, hb]
  · intro bd hb hd hdn
    simp [add_author, hb, hd, hdn]

/-- Witness for C5 (amended): a concrete unparseable death_date crashes the
handler with the state unchanged. -/
theorem add_author_invalid_date_spec_witness :
    add_author emptyCatalog ⟨some "X", some "1990-05-01", some "bad"⟩ none
      = (.crash "ValueError", emptyCatalog) :=
  (add_author_invalid_date_spec emptyCatalog "X" "1990-05-01" "bad" none).2
    ⟨1990, 5, 1⟩ (by decide) (by decide) (by decide)

/-! ## Claim C6: author persistence, rollback and fresh id -/

/-- C6: for an author-creation request whose dates parse, a persistence
failure rolls back (the table is exactly as before) and reports the storage
error with the underlying message, while a successful commit appends a new
Author row carrying a freshly allocated id (distinct from every existing
id) and redirects with the success flag. -/
theorem add_author_persistence_spec (st : CatalogState) (nm b d : String)
    (bd : Date) (dd : Option Date)
    (hb : parseDate (pyStrip b) = some bd)
    (hdeath : (if pyStrip d ≠ "" then (parseDate (pyStrip d)).map some
               else some none) = some dd) :
    (∀ msg, add_author st ⟨some nm, some b, some d⟩ (some msg)
      = (.render "add_author.html" (some ("Database error: " ++ msg)) [], st))
    ∧ add_author st ⟨some nm, some b, some d⟩ none
      = (.redirect "add_author" "success=True",
         { st with authors := st.authors ++ [⟨nextAuthorId st, pyStrip nm, bd, dd⟩] })
    ∧ (∀ a ∈ st.authors, a.id ≠ nextAuthorId st) := by
  refine ⟨?_, ?_, fun a ha => nextAuthorId_fresh st a ha⟩
  · intro msg
    simp [add_author, hb, hdeath]
  · simp [add_author, hb, hdeath]

/-- Witness for C6: at a concrete request, a storage failure re-renders with
the message and keeps the table empty, and a successful commit persists the
author with id 1. -/
theorem add_author_persistence_spec_witness :
    add_author emptyCatalog ⟨some "X", some "1990-05-01", some ""⟩ (some "boom")
      = (.render "add_author.html" (some "Database error: boom") [], emptyCatalog)
    ∧ add_author emptyCatalog ⟨some "X", some "1990-05-01", some ""⟩ none
      = (.redirect "add_author" "success=True", ⟨[⟨1, "X", ⟨1990, 5, 1⟩, none⟩], []⟩) := by
  have h := add_author_persistence_spec emptyCatalog "X" "1990-05-01" "" ⟨1990, 5, 1⟩
    none (by decide) (by decide)
  exact ⟨(h.1 "boom").trans (by decide), h.2.1.trans (by decide)⟩

/-! ## Claim C7: book deletion -/

/-- C7: deleting an id with no matching Book row is a no-op that redirects
with the not-found flag and leaves the table unchanged; deleting an
existing row removes it and redirects with the deleted flag; a storage
failure on deletion rolls back, reports the storage error with the
underlying message and leaves the table unchanged. -/
theorem delete_book_spec (st : CatalogState) (book_id : Nat) :
    (st.books.find? (fun b => b.id == book_id) = none →
      ∀ c, delete_book st book_id c = (.redirect "home" "error=Book not found", st))
    ∧ (∀ bk, st.books.find? (fun b => b.id == book_id) = some bk →
        (∀ msg, delete_book st book_id (some msg)
          = (.redirect "home" ("error=Error deleting book: " ++ msg), st))
        ∧ delete_book st book_id none
          = (.redirect "home" "success_delete=True",
             { st with books := st.books.filter fun b => b.id ≠ book_id })) := by
  constructor
  · intro hnf c
    simp [delete_book, hnf]
  · intro bk hf
    constructor
    · intro msg
      simp [delete_book, hf]
    · simp [delete_book, hf]

/-- Witness for C7: a concrete missing id reports not-found with the table
unchanged, and deleting the one existing row empties the table. -/
theorem delete_book_spec_witness :
    delete_book ⟨[], [⟨1, 1, "A", none, "i"⟩]⟩ 999999 none
      = (.redirect "home" "error=Book not found", ⟨[], [⟨1, 1, "A", none, "i"⟩]⟩)
    ∧ delete_book ⟨[], [⟨1, 1, "A", none, "i"⟩]⟩ 1 none
      = (.redirect "home" "success_delete=True", ⟨[], []⟩) := by
  have h1 := (delete_book_spec ⟨[], [⟨1, 1, "A", none, "i"⟩]⟩ 999999).1 (by decide) none
  have h2 := ((delete_book_spec ⟨[], [⟨1, 1, "A", none, "i"⟩]⟩ 1).2
    ⟨1, 1, "A", none, "i"⟩ (by decide)).2
  exact ⟨h1, h2.trans (by decide)⟩

/-! ## Claim C8: death_date versus birth_date -/

/-- Counterexample to C8: add_author accepts and persists an author whose
death_date (1800-01-01) strictly precedes the birth_date (1990-05-01), so
the claimed invariant does not hold of reachable states. -/
theorem author_death_before_birth_cex :
    add_author emptyCatalog ⟨some "X", some "1990-05-01", some "1800-01-01"⟩ none
      = (.redirect "add_author" "success=True",
         ⟨[⟨1, "X", ⟨1990, 5, 1⟩, some ⟨1800, 1, 1⟩⟩], []⟩)
    ∧ dateLt ⟨1800, 1, 1⟩ ⟨1990, 5, 1⟩ = true :=
  ⟨by decide, by decide⟩

/-- C8 (amended): the author-creation operation performs no comparison
between death_date and birth_date: every request whose two dates parse is
accepted and persisted as given, so a reachable state may contain an Author
row whose death_date precedes its birth_date. -/
theorem add_author_no_date_order_check (st : CatalogState) (nm b d : String)
    (bd ddv : Date) (hb : parseDate (pyStrip b) = some bd)
    (hd : pyStrip d ≠ "") (hdv : parseDate (pyStrip d) = some ddv) :
    add_author st ⟨some nm, some b, some d⟩ none
      = (.redirect "add_author" "success=True",
         { st with authors := st.authors ++
             [⟨nextAuthorId st, pyStrip nm, bd, some ddv⟩] }) := by
  simp [add_author, hb, hd, hdv]

/-- Witness for C8 (amended) at dates in reverse chronological order. -/
theorem add_author_no_date_order_check_witness :
    add_author emptyCatalog ⟨some "Y", some "1990-05-01", some "1800-01-01"⟩ none
      = (.redirect "add_author" "success=True",
         ⟨[⟨1, "Y", ⟨1990, 5, 1⟩, some ⟨1800, 1, 1⟩⟩], []⟩) :=
  (add_author_no_date_order_check emptyCatalog "Y" "1990-05-01" "1800-01-01"
    ⟨1990, 5, 1⟩ ⟨1800, 1, 1⟩ (by decide) (by decide) (by decide)).trans (by decide)

/-! ## Claim C9: insert-then-list round trip -/

end BookAlchemy
